import Mathlib

/-!
Verification development for the file-backed key-value store
(`src/cpp/kvs.cpp`, `src/cpp/kvs.hpp`).

The C++ core is shallowly embedded: pure helpers become Lean functions,
the file system is a read function from file name to optional byte list,
and the external JSON text parser (score::json::JsonParser, a collaborator
that is not part of this repository) is a parameter.  Machine integers are
Nat with explicit `% 2 ^ 32` where the width matters.  Fallible C++ code
returning score::Result is embedded as `Except MyErrorCode`.
-/

/-- Error codes of `enum class MyErrorCode` (src/cpp/kvs.hpp lines 34-91). -/
inductive MyErrorCode where
  | UnmappedError
  | FileNotFound
  | KvsFileReadError
  | KvsHashFileReadError
  | JsonParserError
  | JsonGeneratorError
  | PhysicalStorageFailure
  | IntegrityCorrupted
  | ValidationFailed
  | EncryptionFailed
  | ResourceBusy
  | OutOfStorageSpace
  | QuotaExceeded
  | AuthenticationFailed
  | KeyNotFound
  | SerializationFailed
  | InvalidSnapshotId
  | ConversionFailed
  | MutexLockFailed
deriving DecidableEq, Repr

/-- Need-Defaults flag (src/cpp/kvs.hpp lines 118-121). -/
inductive OpenNeedDefaults where
  | Optional
  | Required
deriving DecidableEq, Repr

/-- Need-KVS flag (src/cpp/kvs.hpp lines 124-127). -/
inductive OpenNeedKvs where
  | Optional
  | Required
deriving DecidableEq, Repr

/-- Need-File flag of the private open_json helper (src/cpp/kvs.hpp lines 130-133). -/
inductive OpenJsonNeedFile where
  | Optional
  | Required
deriving DecidableEq, Repr

/-- Verify-Hash flag of the private open_json helper (src/cpp/kvs.hpp lines 135-138). -/
inductive OpenJsonVerifyHash where
  | No
  | Yes
deriving DecidableEq, Repr

/-- Stand-in for a C++ `double` payload.  The store never computes with the
numeric value: the codec and CRUD layer only carry doubles through unchanged,
so the payload is modelled as an uninterpreted bit pattern with decidable
equality. -/
structure DoubleVal where
  bits : Nat
deriving DecidableEq, Repr

/-- Parsed JSON tree, the `score::json::Any` nodes as consumed by
`Kvs::any_to_kvsvalue` (src/cpp/kvs.cpp lines 285-336): the six node kinds the
code queries with `As<...>`, plus `other` for any extension node kind on which
every one of those accessors fails. -/
inductive Any where
  | null
  | boolean (b : Bool)
  | number (d : DoubleVal)
  | string (s : String)
  | list (xs : List Any)
  | object (ms : List (String × Any))
  | other

/-- The `KvsValue` variant type (src/cpp/kvs.hpp lines 175-213).  The C++
`Object` is `std::unordered_map<std::string, KvsValue>`; it is modelled as an
association list in which the first binding of a key is the visible one, which
matches `emplace` (insert only when the key is absent) applied in iteration
order. -/
inductive KvsValue where
  | Number (d : DoubleVal)
  | Boolean (b : Bool)
  | String (s : String)
  | Null
  | Array (xs : List KvsValue)
  | Object (ms : List (String × KvsValue))

/-- The in-memory map type `std::unordered_map<std::string, KvsValue>`,
modelled as an association list (first binding of a key wins). -/
abbrev KvsMap := List (String × KvsValue)

/-- Loop body of the adler32 helper (src/cpp/kvs.cpp lines 15-18):
`a = (a + c) % mod; b = (b + a) % mod;` where `b` already sees the updated
`a`. -/
def adler32_step (ab : Nat × Nat) (c : Nat) : Nat × Nat :=
  ((ab.1 + c) % 65521, (ab.2 + (ab.1 + c) % 65521) % 65521)

/-- The adler32 helper (src/cpp/kvs.cpp lines 12-20): two 32-bit accumulators
`a = 1`, `b = 0`, modulus 65521; per byte `a = (a + c) % 65521` then
`b = (b + a) % 65521`; result `(b << 16) | a`, a `uint32_t` (hence the final
`% 2 ^ 32`; the intermediate sums never exceed 2 ^ 32 because both
accumulators stay below 65521). -/
def adler32 (data : List Nat) : Nat :=
  let ab := data.foldl adler32_step (1, 0)
  ((ab.2 <<< 16) ||| ab.1) % 2 ^ 32

/-- The checksum recurrence exactly as the specification words it (spec
section 4.3): accumulators `a = 1`, `b = 0`, modulus `M = 65521`; for each
byte `c` in order `a = (a + c) mod M`, `b = (b + a) mod M`; final checksum
`(b << 16) | a`, written here in its arithmetic form `b * 65536 + a`.
Defined from the spec sentence, to be compared against `adler32`, which is
translated from the source. -/
def checksum_spec_go (a b : Nat) : List Nat → Nat
  | [] => b * 65536 + a
  | c :: rest =>
    let a2 := (a + c) % 65521
    let b2 := (b + a2) % 65521
    checksum_spec_go a2 b2 rest

/-- Entry point of the spec-worded checksum recurrence: `a = 1`, `b = 0`. -/
def checksum_spec (data : List Nat) : Nat := checksum_spec_go 1 0 data

/-- Big-endian decoding of the four hash-file bytes, as computed in
`Kvs::open_json` (src/cpp/kvs.cpp lines 229-230):
`(buf[0] << 24) | (buf[1] << 16) | (buf[2] << 8) | buf[3]`. -/
def decode_be32 (b0 b1 b2 b3 : Nat) : Nat :=
  (b0 <<< 24) ||| (b1 <<< 16) ||| (b2 <<< 8) ||| b3

mutual

/-- `Kvs::any_to_kvsvalue` (src/cpp/kvs.cpp lines 285-336).  `result` is
initialized to a `ConversionFailed` error and replaced only when one of the
`As<...>` accessors succeeds; for arrays and objects the element loop sets an
error flag and breaks at the first failing child, discarding the partially
built container and leaving the initial `ConversionFailed` result. -/
def any_to_kvsvalue : Any → Except MyErrorCode KvsValue
  | .null => .ok .Null
  | .boolean b => .ok (.Boolean b)
  | .number d => .ok (.Number d)
  | .string s => .ok (.String s)
  | .list xs =>
    match conv_elems xs with
    | some arr => .ok (.Array arr)
    | none => .error .ConversionFailed
  | .object ms =>
    match conv_fields ms with
    | some obj => .ok (.Object obj)
    | none => .error .ConversionFailed
  | .other => .error .ConversionFailed

/-- The element loop of the `List` branch of `Kvs::any_to_kvsvalue`
(src/cpp/kvs.cpp lines 301-315): convert each element in order, break at the
first failure (`none`, the element's own error object is discarded by the
source), otherwise collect the converted elements in order. -/
def conv_elems : List Any → Option (List KvsValue)
  | [] => some []
  | x :: xs =>
    match any_to_kvsvalue x with
    | .error _ => none
    | .ok v =>
      match conv_elems xs with
      | none => none
      | some vs => some (v :: vs)

/-- The member loop of the `Object` branch of `Kvs::any_to_kvsvalue`
(src/cpp/kvs.cpp lines 316-333): convert each member value in order, break at
the first failure, otherwise emplace the converted pairs in iteration order. -/
def conv_fields : List (String × Any) → Option (List (String × KvsValue))
  | [] => some []
  | (k, x) :: ms =>
    match any_to_kvsvalue x with
    | .error _ => none
    | .ok v =>
      match conv_fields ms with
      | none => none
      | some vs => some ((k, v) :: vs)

end

/-- The member-conversion loop of the parse block of `Kvs::open_json`
(src/cpp/kvs.cpp lines 258-272): for each member of the root object, convert
the value with `any_to_kvsvalue`; on failure the member's error is propagated
and the loop breaks; on success the pair is emplaced in iteration order. -/
def convert_members : List (String × Any) → Except MyErrorCode KvsMap
  | [] => .ok []
  | (k, x) :: ms =>
    match any_to_kvsvalue x with
    | .error e => .error e
    | .ok v =>
      match convert_members ms with
      | .error e => .error e
      | .ok vs => .ok ((k, v) :: vs)

/-- The parse block of `Kvs::open_json` (src/cpp/kvs.cpp lines 244-280), run
when no earlier block set the error flag: parse the buffered file bytes
(failure becomes `JsonParserError`); if the root is an object convert its
members, otherwise warn and use the empty map. -/
def parse_phase (parse : List Nat → Option Any) (data : List Nat) :
    Except MyErrorCode KvsMap :=
  match parse data with
  | none => .error .JsonParserError
  | some root =>
    match root with
    | .object members => convert_members members
    | _ => .ok []

/-- The C++ ternary `need_defaults == Required ? OpenJsonNeedFile::Required :
OpenJsonNeedFile::Optional` in `Kvs::open` (src/cpp/kvs.cpp line 163). -/
def OpenNeedDefaults.toNeedFile : OpenNeedDefaults → OpenJsonNeedFile
  | .Required => .Required
  | .Optional => .Optional

/-- The C++ ternary `need_kvs == Required ? OpenJsonNeedFile::Required :
OpenJsonNeedFile::Optional` in `Kvs::open` (src/cpp/kvs.cpp line 171). -/
def OpenNeedKvs.toNeedFile : OpenNeedKvs → OpenJsonNeedFile
  | .Required => .Required
  | .Optional => .Optional

/-- The Store state (private members of `class Kvs`, src/cpp/kvs.hpp lines
481-493): current map `kvs`, read-only `default_values`, the filename stem
(`filename_prefix` in the source) and the flush-on-exit flag.  The mutex is
not represented: the embedding is sequential. -/
structure Kvs where
  kvs : KvsMap
  default_values : KvsMap
  filename_stem : String
  flush_on_exit : Bool

/-- `Kvs::open_json` (src/cpp/kvs.cpp lines 190-283), the single-file loader.
`fs` maps a file name to its byte content (`none` when the file cannot be
read), `parse` is the external JSON parser collaborator.  The three source
blocks are mirrored: read the json file, verify the hash, parse the data.
Each block runs only when the `error` flag is still clear, and `result`
(initialized to an `UnmappedError` sentinel) is overwritten by every block
that runs; in particular, when the json file is absent under `Optional` the
error flag stays clear, so the hash block and the parse block still run on
the empty buffer.  The hash block reads four bytes out of the hash file; a
hash file shorter than four bytes would make the C++ read uninitialized
stack bytes, so the model (which pads with zeros via `getD`) is only claimed
faithful for hash files of at least four bytes, and every theorem about the
hash check carries that hypothesis. -/
def Kvs.open_json (parse : List Nat → Option Any) (fs : String → Option (List Nat))
    (stem : String) (need_file : OpenJsonNeedFile) (verify_hash : OpenJsonVerifyHash) :
    Except MyErrorCode KvsMap :=
  let json_file := stem ++ ".json"
  let hash_file := stem ++ ".hash"
  let step1 : Bool × Except MyErrorCode KvsMap × List Nat :=
    match fs json_file with
    | none =>
      match need_file with
      | .Required => (true, .error .KvsFileReadError, [])
      | .Optional => (false, .ok [], [])
    | some bytes => (false, .error .UnmappedError, bytes)
  let error1 := step1.1
  let result1 := step1.2.1
  let data := step1.2.2
  let step2 : Bool × Except MyErrorCode KvsMap :=
    if error1 then (error1, result1)
    else
      match verify_hash with
      | .No => (error1, result1)
      | .Yes =>
        match fs hash_file with
        | none => (true, .error .KvsHashFileReadError)
        | some h =>
          let file_hash := decode_be32 (h.getD 0 0) (h.getD 1 0) (h.getD 2 0) (h.getD 3 0)
          let calc_hash := adler32 data
          if file_hash ≠ calc_hash then (true, .error .ValidationFailed)
          else (error1, result1)
  if step2.1 then step2.2
  else parse_phase parse data

/-- The `d` prefix string of `Kvs::open` (src/cpp/kvs.cpp line 153):
`dir.has_value() ? dir.value() + "/" : string()`. -/
def dirSlash : Option String → String
  | some s => s ++ "/"
  | none => ""

/-- `filename_default` of `Kvs::open` (src/cpp/kvs.cpp line 154). -/
def default_filename (dir : Option String) (instance_id : Nat) : String :=
  dirSlash dir ++ "kvs_" ++ toString instance_id ++ "_default"

/-- `filename_prefix` of `Kvs::open` (src/cpp/kvs.cpp line 155). -/
def stem_filename (dir : Option String) (instance_id : Nat) : String :=
  dirSlash dir ++ "kvs_" ++ toString instance_id

/-- `filename_kvs` of `Kvs::open` (src/cpp/kvs.cpp line 156). -/
def kvs_filename (dir : Option String) (instance_id : Nat) : String :=
  stem_filename dir instance_id ++ "_0"

/-- `Kvs::open` (src/cpp/kvs.cpp lines 147-188): run `open_json` on the
default file (never hash-checked), then - only if that succeeded - on the
current-snapshot file (hash-checked); the first failing pass determines the
overall error; on success construct the Store with the snapshot map, the
default map, the filename stem and `flush_on_exit = true`.  (`open` is a
Lean keyword, hence the name `open_store`.) -/
def Kvs.open_store (parse : List Nat → Option Any) (fs : String → Option (List Nat))
    (instance_id : Nat) (need_defaults : OpenNeedDefaults) (need_kvs : OpenNeedKvs)
    (dir : Option String) : Except MyErrorCode Kvs :=
  match Kvs.open_json parse fs (default_filename dir instance_id)
      need_defaults.toNeedFile .No with
  | .error e => .error e
  | .ok default_res =>
    match Kvs.open_json parse fs (kvs_filename dir instance_id)
        need_kvs.toNeedFile .Yes with
    | .error e => .error e
    | .ok kvs_res =>
      .ok { kvs := kvs_res
            default_values := default_res
            filename_stem := stem_filename dir instance_id
            flush_on_exit := true }

/-- `KVS_MAX_SNAPSHOTS` (src/cpp/kvs.hpp line 31). -/
def KVS_MAX_SNAPSHOTS : Nat := 3

/-- `Kvs::max_snapshot_count` (src/cpp/kvs.cpp lines 405-408): the body is
`return 0;`. -/
def Kvs.max_snapshot_count (_store : Kvs) : Nat := 0

/-- `Kvs::snapshot_count` (src/cpp/kvs.cpp lines 399-402): the body is
`return 0;`. -/
def Kvs.snapshot_count (_store : Kvs) : Nat := 0

/-- `Kvs::reset` (src/cpp/kvs.cpp lines 345-348): returns `UnmappedError`. -/
def Kvs.reset (_store : Kvs) : Except MyErrorCode Unit := .error .UnmappedError

/-- `Kvs::get_all_keys` (src/cpp/kvs.cpp lines 351-354). -/
def Kvs.get_all_keys (_store : Kvs) : Except MyErrorCode (List String) :=
  .error .UnmappedError

/-- `Kvs::key_exists` (src/cpp/kvs.cpp lines 357-360). -/
def Kvs.key_exists (_store : Kvs) (_key : String) : Except MyErrorCode Bool :=
  .error .UnmappedError

/-- `Kvs::get_value` (src/cpp/kvs.cpp lines 363-366). -/
def Kvs.get_value (_store : Kvs) (_key : String) : Except MyErrorCode KvsValue :=
  .error .UnmappedError

/-- `Kvs::get_default_value` (src/cpp/kvs.cpp lines 369-372). -/
def Kvs.get_default_value (_store : Kvs) (_key : String) : Except MyErrorCode KvsValue :=
  .error .UnmappedError

/-- `Kvs::is_value_default` (src/cpp/kvs.cpp lines 375-378). -/
def Kvs.is_value_default (_store : Kvs) (_key : String) : Except MyErrorCode Bool :=
  .error .UnmappedError

/-- `Kvs::set_value` (src/cpp/kvs.cpp lines 381-384). -/
def Kvs.set_value (_store : Kvs) (_key : String) (_value : KvsValue) :
    Except MyErrorCode Bool :=
  .error .UnmappedError

/-- `Kvs::remove_key` (src/cpp/kvs.cpp lines 387-390). -/
def Kvs.remove_key (_store : Kvs) (_key : String) : Except MyErrorCode Unit :=
  .error .UnmappedError

/-- `Kvs::flush` (src/cpp/kvs.cpp lines 393-396). -/
def Kvs.flush (_store : Kvs) : Except MyErrorCode Unit := .error .UnmappedError

/-- `Kvs::snapshot_restore` (src/cpp/kvs.cpp lines 411-414). -/
def Kvs.snapshot_restore (_store : Kvs) (_snapshot_id : Nat) :
    Except MyErrorCode Unit :=
  .error .UnmappedError

/-- `Kvs::get_kvs_filename` (src/cpp/kvs.cpp lines 417-420). -/
def Kvs.get_kvs_filename (_store : Kvs) (_snapshot_id : Nat) :
    Except MyErrorCode String :=
  .error .UnmappedError

/-- `Kvs::get_kvs_hash_filename` (src/cpp/kvs.cpp lines 423-426). -/
def Kvs.get_kvs_hash_filename (_store : Kvs) (_snapshot_id : Nat) :
    Except MyErrorCode String :=
  .error .UnmappedError

/-! ## Shared helper lemmas -/

/-- Concatenating a value shifted left by 16 with a low part below 2 ^ 16 is
plain addition. -/
theorem shiftLeft16_lor_eq_add (b a : Nat) (ha : a < 65536) :
    (b <<< 16) ||| a = b * 65536 + a := by
  have h2 : a < 2 ^ 16 := lt_of_lt_of_le ha (by norm_num)
  rw [Nat.shiftLeft_eq, Nat.mul_comm b (2 ^ 16), ← Nat.mul_add_lt_is_or h2 b,
    Nat.mul_comm (2 ^ 16) b]

/-- Invariant-carrying equivalence of the adler32 fold with the spec-worded
recurrence: both accumulators stay below the modulus, so the final 32-bit
packing is exact. -/
theorem adler32_loop (l : List Nat) : ∀ a b : Nat, a < 65521 → b < 65521 →
    (((l.foldl adler32_step (a, b)).2 <<< 16) ||| (l.foldl adler32_step (a, b)).1) % 2 ^ 32
      = checksum_spec_go a b l := by
  induction l with
  | nil =>
    intro a b ha hb
    simp only [List.foldl_nil, checksum_spec_go]
    rw [shiftLeft16_lor_eq_add b a (by omega)]
    exact Nat.mod_eq_of_lt (by rw [(by norm_num : (2:Nat) ^ 32 = 4294967296)]; omega)
  | cons c t ih =>
    intro a b ha hb
    simp only [List.foldl_cons, adler32_step, checksum_spec_go]
    exact ih _ _ (Nat.mod_lt _ (by norm_num)) (Nat.mod_lt _ (by norm_num))

/-- C1: for every byte sequence, the integrity checksum computed by the code
(`adler32`) equals the value of the fixed algorithm stated by the spec
(accumulators a = 1, b = 0, modulus 65521, per byte a = (a + c) mod 65521 then
b = (b + a) mod 65521, result (b << 16) | a), and the function is pure and
deterministic: equal inputs give equal results. -/
theorem adler32_matches_spec (data : List Nat) :
    adler32 data = checksum_spec data
      ∧ (∀ data2, data2 = data → adler32 data2 = adler32 data) := by
  constructor
  · exact adler32_loop data 1 0 (by norm_num) (by norm_num)
  · intro data2 h
    rw [h]

/-- Witness for C1 at a concrete byte sequence. -/
theorem adler32_matches_spec_witness :
    adler32 [72, 105] = checksum_spec [72, 105] ∧ adler32 [72, 105] = adler32 [72, 105] :=
  ⟨(adler32_matches_spec [72, 105]).1, (adler32_matches_spec [72, 105]).2 [72, 105] rfl⟩

/-! ## Concrete collaborators for evaluations -/

/-- Concrete parser instance used for evaluations: every buffer parses to the
empty JSON object. -/
def parse_const_object : List Nat → Option Any := fun _ => some (.object [])

/-- Modelled from the spec: the external JSON text parser collaborator
(score::json::JsonParser) is not part of this repository; the spec gives its
contract as parse(text) to Result of Tree with `JsonParserError` exactly when
the content is not syntactically valid JSON.  The empty buffer is not valid
JSON, so a conformant parser rejects it; on non-empty buffers this instance
returns the empty object. -/
def parse_reject_empty : List Nat → Option Any :=
  fun data => if data.isEmpty then none else some (.object [])

/-- A sample opened store used to evaluate the member functions. -/
def sample_store : Kvs :=
  { kvs := [], default_values := [], filename_stem := "kvs_123", flush_on_exit := true }

/-! ## C2, C3: required and optional behavior of a missing file -/

/-- C2: with no current-snapshot json file (and no hash file), need_kvs =
Required fails with KvsFileReadError as claimed; but need_kvs = Optional does
NOT succeed with an empty current map: the Optional branch of open_json sets
the empty-map result without stopping the function, so the mandatory hash
check still runs, finds no hash file, and open fails with
KvsHashFileReadError.  (The repository's own test kvs_TEST.open_kvs_missing
expects success here.) -/
theorem open_kvs_json_missing_eval :
    Kvs.open_store parse_const_object (fun _ => none) 123 .Optional .Required none
        = .error .KvsFileReadError
      ∧ Kvs.open_store parse_const_object (fun _ => none) 123 .Optional .Optional none
        = .error .KvsHashFileReadError :=
  ⟨rfl, rfl⟩

/-- C3: with no default file, need_defaults = Required fails with
KvsFileReadError as claimed; but under need_defaults = Optional the defaults
pass does NOT succeed with an empty default map: the Optional branch leaves
the error flag clear, so the parse block still runs on the empty buffer and a
conformant parser rejects it, failing the open with JsonParserError.  (The
repository's own tests kvs_TEST.kvsbuilder and kvs_TEST.open_default_corrupted
expect success here.) -/
theorem open_default_missing_eval :
    Kvs.open_store parse_reject_empty (fun _ => none) 123 .Required .Optional none
        = .error .KvsFileReadError
      ∧ Kvs.open_store parse_reject_empty (fun _ => none) 123 .Optional .Optional none
        = .error .JsonParserError :=
  ⟨rfl, rfl⟩

/-! ## C8: max_snapshot_count -/

/-- C8: the code's max_snapshot_count returns 0, not the constant
KVS_MAX_SNAPSHOTS = 3 claimed by the spec; the body is an unimplemented
`return 0;` stub. -/
theorem max_snapshot_count_eval :
    Kvs.max_snapshot_count sample_store = 0
      ∧ KVS_MAX_SNAPSHOTS = 3
      ∧ Kvs.max_snapshot_count sample_store ≠ KVS_MAX_SNAPSHOTS :=
  ⟨rfl, rfl, by decide⟩

/-! ## C9: UnmappedError as a final result -/

/-- C9: every stubbed public operation of the code returns exactly the
UnmappedError sentinel as its final result, contradicting the claim that a
completed operation never ends in UnmappedError (Kvs::open itself never does:
see the open characterization; the twelve member operations below all do). -/
theorem stubs_return_unmapped_error :
    Kvs.get_value sample_store "kvs" = .error .UnmappedError
      ∧ Kvs.get_default_value sample_store "default" = .error .UnmappedError
      ∧ Kvs.set_value sample_store "kvs" .Null = .error .UnmappedError
      ∧ Kvs.remove_key sample_store "kvs" = .error .UnmappedError
      ∧ Kvs.key_exists sample_store "kvs" = .error .UnmappedError
      ∧ Kvs.get_all_keys sample_store = .error .UnmappedError
      ∧ Kvs.is_value_default sample_store "kvs" = .error .UnmappedError
      ∧ Kvs.reset sample_store = .error .UnmappedError
      ∧ Kvs.flush sample_store = .error .UnmappedError
      ∧ Kvs.snapshot_restore sample_store 0 = .error .UnmappedError
      ∧ Kvs.get_kvs_filename sample_store 0 = .error .UnmappedError
      ∧ Kvs.get_kvs_hash_filename sample_store 0 = .error .UnmappedError :=
  ⟨rfl, rfl, rfl, rfl, rfl, rfl, rfl, rfl, rfl, rfl, rfl, rfl⟩

/-! ## Evaluation lemmas for open_json -/

/-- A missing json file under Required fails with KvsFileReadError and skips
the later blocks. -/
theorem open_json_missing_required (parse : List Nat → Option Any)
    (fs : String → Option (List Nat)) (stem : String) (vh : OpenJsonVerifyHash)
    (hjson : fs (stem ++ ".json") = none) :
    Kvs.open_json parse fs stem .Required vh = .error .KvsFileReadError := by
  simp [Kvs.open_json, hjson]

/-- With the json file present, a missing hash file fails with
KvsHashFileReadError regardless of the need_file policy. -/
theorem open_json_hash_missing (parse : List Nat → Option Any)
    (fs : String → Option (List Nat)) (stem : String) (nf : OpenJsonNeedFile)
    (bytes : List Nat)
    (hjson : fs (stem ++ ".json") = some bytes)
    (hhash : fs (stem ++ ".hash") = none) :
    Kvs.open_json parse fs stem nf .Yes = .error .KvsHashFileReadError := by
  simp [Kvs.open_json, hjson, hhash]

/-- With both files present, a checksum mismatch against the first four hash
bytes fails with ValidationFailed. -/
theorem open_json_hash_mismatch (parse : List Nat → Option Any)
    (fs : String → Option (List Nat)) (stem : String) (nf : OpenJsonNeedFile)
    (bytes hb : List Nat)
    (hjson : fs (stem ++ ".json") = some bytes)
    (hhash : fs (stem ++ ".hash") = some hb)
    (hne : decode_be32 (hb.getD 0 0) (hb.getD 1 0) (hb.getD 2 0) (hb.getD 3 0)
        ≠ adler32 bytes) :
    Kvs.open_json parse fs stem nf .Yes = .error .ValidationFailed := by
  simp only [List.getD_eq_getElem?_getD] at hne
  simp [Kvs.open_json, hjson, hhash, hne]

/-- With both files present and a matching checksum, the loader proceeds to
the parse block on the json bytes. -/
theorem open_json_hash_match (parse : List Nat → Option Any)
    (fs : String → Option (List Nat)) (stem : String) (nf : OpenJsonNeedFile)
    (bytes hb : List Nat)
    (hjson : fs (stem ++ ".json") = some bytes)
    (hhash : fs (stem ++ ".hash") = some hb)
    (heq : decode_be32 (hb.getD 0 0) (hb.getD 1 0) (hb.getD 2 0) (hb.getD 3 0)
        = adler32 bytes) :
    Kvs.open_json parse fs stem nf .Yes = parse_phase parse bytes := by
  simp only [List.getD_eq_getElem?_getD] at heq
  simp [Kvs.open_json, hjson, hhash, heq]

/-! ## C4: missing hash file for a present snapshot -/

/-- File system with only the instance-5 snapshot json present: no hash file,
no default file. -/
def fs_snapshot_only : String → Option (List Nat) := fun n =>
  if n = "kvs_5_0.json" then some [] else none

/-- Counterexample to C4 as stated: the snapshot json exists and its hash
file cannot be read, yet this open fails with KvsFileReadError, not
KvsHashFileReadError, because the defaults pass (Required, no default file)
fails first and short-circuits the open. -/
theorem open_hash_missing_preempted_by_defaults :
    fs_snapshot_only "kvs_5_0.json" = some []
      ∧ fs_snapshot_only "kvs_5_0.hash" = none
      ∧ Kvs.open_store parse_const_object fs_snapshot_only 5 .Required .Required none
          = .error .KvsFileReadError
      ∧ MyErrorCode.KvsFileReadError ≠ MyErrorCode.KvsHashFileReadError :=
  ⟨rfl, rfl, rfl, by decide⟩

/-- C4 (amended): provided the defaults pass succeeds, an open whose snapshot
json file exists but whose hash file cannot be read fails with
KvsHashFileReadError, for both need_kvs policies - the hash check is
unconditional once the json file exists. -/
theorem open_hash_missing_after_defaults (parse : List Nat → Option Any)
    (fs : String → Option (List Nat)) (iid : Nat)
    (ndf : OpenNeedDefaults) (nkvs : OpenNeedKvs) (dir : Option String)
    (dv : KvsMap) (bytes : List Nat)
    (hdef : Kvs.open_json parse fs (default_filename dir iid) ndf.toNeedFile .No = .ok dv)
    (hjson : fs (kvs_filename dir iid ++ ".json") = some bytes)
    (hhash : fs (kvs_filename dir iid ++ ".hash") = none) :
    Kvs.open_store parse fs iid ndf nkvs dir = .error .KvsHashFileReadError := by
  simp [Kvs.open_store, hdef,
    open_json_hash_missing parse fs (kvs_filename dir iid) nkvs.toNeedFile bytes hjson hhash]

/-- Witness for C4 (amended): defaults Optional (pass succeeds on the absent
default file with this parser), snapshot json present, hash absent. -/
theorem open_hash_missing_after_defaults_witness :
    Kvs.open_store parse_const_object fs_snapshot_only 5 .Optional .Required none
      = .error .KvsHashFileReadError :=
  open_hash_missing_after_defaults parse_const_object fs_snapshot_only 5
    .Optional .Required none [] [] rfl rfl rfl

/-! ## C5: checksum verification of the snapshot pair -/

/-- File system for instance 7: snapshot json with empty content, hash file
holding big-endian 2, which does not match adler32 of the empty content
(which is 1), and no default file. -/
def fs_mismatched_hash : String → Option (List Nat) := fun n =>
  if n = "kvs_7_0.json" then some []
  else if n = "kvs_7_0.hash" then some [0, 0, 0, 2]
  else none

/-- Counterexample to C5 as stated: both snapshot files are readable and the
checksum does not match, yet this open fails with KvsFileReadError, not
ValidationFailed, because the defaults pass (Required, no default file) fails
first and short-circuits the open. -/
theorem open_validation_preempted_by_defaults :
    fs_mismatched_hash "kvs_7_0.json" = some []
      ∧ fs_mismatched_hash "kvs_7_0.hash" = some [0, 0, 0, 2]
      ∧ decode_be32 0 0 0 2 ≠ adler32 []
      ∧ Kvs.open_store parse_const_object fs_mismatched_hash 7 .Required .Required none
          = .error .KvsFileReadError
      ∧ MyErrorCode.KvsFileReadError ≠ MyErrorCode.ValidationFailed :=
  ⟨rfl, rfl, by decide, rfl, by decide⟩

/-- C5 (amended): provided the defaults pass succeeds, when the snapshot json
file and its hash file (at least four bytes) are both readable, verification
succeeds if and only if the checksum of the json bytes equals the big-endian
32-bit integer decoded from the four hash bytes: on inequality the open fails
with ValidationFailed, and on equality the open proceeds with the parse of
the snapshot bytes, whose outcome it propagates. -/
theorem open_validation_after_defaults (parse : List Nat → Option Any)
    (fs : String → Option (List Nat)) (iid : Nat)
    (ndf : OpenNeedDefaults) (nkvs : OpenNeedKvs) (dir : Option String)
    (dv : KvsMap) (bytes hb : List Nat)
    (hdef : Kvs.open_json parse fs (default_filename dir iid) ndf.toNeedFile .No = .ok dv)
    (hjson : fs (kvs_filename dir iid ++ ".json") = some bytes)
    (hhash : fs (kvs_filename dir iid ++ ".hash") = some hb)
    (hlen : 4 ≤ hb.length) :
    (decode_be32 (hb.getD 0 0) (hb.getD 1 0) (hb.getD 2 0) (hb.getD 3 0) ≠ adler32 bytes →
        Kvs.open_store parse fs iid ndf nkvs dir = .error .ValidationFailed)
      ∧ (decode_be32 (hb.getD 0 0) (hb.getD 1 0) (hb.getD 2 0) (hb.getD 3 0) = adler32 bytes →
          ∀ e, parse_phase parse bytes = .error e →
            Kvs.open_store parse fs iid ndf nkvs dir = .error e)
      ∧ (decode_be32 (hb.getD 0 0) (hb.getD 1 0) (hb.getD 2 0) (hb.getD 3 0) = adler32 bytes →
          ∀ kv, parse_phase parse bytes = .ok kv →
            Kvs.open_store parse fs iid ndf nkvs dir =
              .ok { kvs := kv, default_values := dv,
                    filename_stem := stem_filename dir iid, flush_on_exit := true }) := by
  refine ⟨?_, ?_, ?_⟩
  · intro hne
    simp [Kvs.open_store, hdef,
      open_json_hash_mismatch parse fs (kvs_filename dir iid) nkvs.toNeedFile bytes hb
        hjson hhash hne]
  · intro heq e hp
    simp [Kvs.open_store, hdef,
      open_json_hash_match parse fs (kvs_filename dir iid) nkvs.toNeedFile bytes hb
        hjson hhash heq, hp]
  · intro heq kv hp
    simp [Kvs.open_store, hdef,
      open_json_hash_match parse fs (kvs_filename dir iid) nkvs.toNeedFile bytes hb
        hjson hhash heq, hp]

/-- File system for instance 9: snapshot json with empty content and the
matching hash (adler32 of the empty byte sequence is 1), no default file. -/
def fs_valid_hash : String → Option (List Nat) := fun n =>
  if n = "kvs_9_0.json" then some []
  else if n = "kvs_9_0.hash" then some [0, 0, 0, 1]
  else none

/-- Witness for C5 (amended): matching checksum, open succeeds and carries
the parsed snapshot map. -/
theorem open_validation_after_defaults_witness :
    Kvs.open_store parse_const_object fs_valid_hash 9 .Optional .Required none
      = .ok { kvs := [], default_values := [], filename_stem := "kvs_9",
              flush_on_exit := true } :=
  (open_validation_after_defaults parse_const_object fs_valid_hash 9
      .Optional .Required none [] [] [0, 0, 0, 1] rfl rfl rfl (by decide)).2.2
    (by decide) [] rfl

/-! ## C7: open runs two passes, defaults first -/

/-- C7: the defaults pass runs first and its error is the open's error
regardless of the snapshot files; when it succeeds, a snapshot-pass error is
the open's error; when both succeed the Store holds the snapshot map as
current, the defaults map as default, the filename stem "<dir/>kvs_<instance>"
(no directory component when none is supplied) and flush_on_exit = true.
No Store accompanies any failure (the result is an Except error). -/
theorem open_two_pass (parse : List Nat → Option Any) (fs : String → Option (List Nat))
    (iid : Nat) (ndf : OpenNeedDefaults) (nkvs : OpenNeedKvs) (dir : Option String) :
    (∀ e, Kvs.open_json parse fs (default_filename dir iid) ndf.toNeedFile .No = .error e →
        Kvs.open_store parse fs iid ndf nkvs dir = .error e)
      ∧ (∀ dv e, Kvs.open_json parse fs (default_filename dir iid) ndf.toNeedFile .No = .ok dv →
          Kvs.open_json parse fs (kvs_filename dir iid) nkvs.toNeedFile .Yes = .error e →
          Kvs.open_store parse fs iid ndf nkvs dir = .error e)
      ∧ (∀ dv kv, Kvs.open_json parse fs (default_filename dir iid) ndf.toNeedFile .No = .ok dv →
          Kvs.open_json parse fs (kvs_filename dir iid) nkvs.toNeedFile .Yes = .ok kv →
          Kvs.open_store parse fs iid ndf nkvs dir =
            .ok { kvs := kv, default_values := dv,
                  filename_stem := stem_filename dir iid, flush_on_exit := true })
      ∧ (dir = none → stem_filename dir iid = "kvs_" ++ toString iid)
      ∧ (∀ s, dir = some s →
          stem_filename dir iid = s ++ "/" ++ ("kvs_" ++ toString iid)) := by
  refine ⟨?_, ?_, ?_, ?_, ?_⟩
  · intro e h
    simp [Kvs.open_store, h]
  · intro dv e h1 h2
    simp [Kvs.open_store, h1, h2]
  · intro dv kv h1 h2
    simp [Kvs.open_store, h1, h2]
  · intro h
    subst h
    rfl
  · intro s h
    subst h
    simp only [stem_filename, dirSlash]
    exact String.append_assoc (s ++ "/") "kvs_" (toString iid)

/-- File system for instance 9 under directory "dir": snapshot json with
empty content and matching hash, no default file. -/
def fs_dir_store : String → Option (List Nat) := fun n =>
  if n = "dir/kvs_9_0.json" then some []
  else if n = "dir/kvs_9_0.hash" then some [0, 0, 0, 1]
  else none

/-- Witness for C7: both passes succeed at a concrete input with a directory;
the Store holds the two maps, the directory-qualified stem and the enabled
flush flag. -/
theorem open_two_pass_witness :
    Kvs.open_store parse_const_object fs_dir_store 9 .Optional .Required (some "dir")
      = .ok { kvs := [], default_values := [], filename_stem := "dir/kvs_9",
              flush_on_exit := true } :=
  (open_two_pass parse_const_object fs_dir_store 9 .Optional .Required
      (some "dir")).2.2.1 [] [] rfl rfl

/-! ## C10: only the first four hash bytes matter -/

/-- Lists agreeing on their first four entries agree on `getD i 0` for
`i < 4`. -/
theorem getD_eq_of_take_four_eq (l l2 : List Nat) (i : Nat) (hi : i < 4)
    (h : l.take 4 = l2.take 4) : l.getD i 0 = l2.getD i 0 := by
  have h1 : l[i]? = l2[i]? := by
    rw [← @List.getElem?_take_of_lt Nat l 4 i hi, ← @List.getElem?_take_of_lt Nat l2 4 i hi, h]
  simp [List.getD_eq_getElem?_getD, h1]

/-- C10: when the snapshot json exists and its hash file is readable with at
least four bytes, the verification outcome is decided exactly by the
big-endian integer of the first four hash bytes (success iff it equals the
checksum of the json bytes), and two hash files agreeing on their first four
bytes - in particular a four-byte file and a longer one - give identical
loader outcomes: extra bytes are not rejected as malformed. -/
theorem hash_check_uses_first_four_bytes (parse : List Nat → Option Any)
    (fs fs2 : String → Option (List Nat)) (stem : String) (nf : OpenJsonNeedFile)
    (bytes hb hb2 : List Nat)
    (hjson : fs (stem ++ ".json") = some bytes)
    (hhash : fs (stem ++ ".hash") = some hb)
    (hlen : 4 ≤ hb.length) :
    (Kvs.open_json parse fs stem nf .Yes =
        if decode_be32 (hb.getD 0 0) (hb.getD 1 0) (hb.getD 2 0) (hb.getD 3 0)
            = adler32 bytes
        then parse_phase parse bytes
        else .error .ValidationFailed)
      ∧ (fs2 (stem ++ ".json") = some bytes → fs2 (stem ++ ".hash") = some hb2 →
          4 ≤ hb2.length → hb.take 4 = hb2.take 4 →
          Kvs.open_json parse fs stem nf .Yes = Kvs.open_json parse fs2 stem nf .Yes) := by
  constructor
  · by_cases hc : decode_be32 (hb.getD 0 0) (hb.getD 1 0) (hb.getD 2 0) (hb.getD 3 0)
        = adler32 bytes
    · rw [open_json_hash_match parse fs stem nf bytes hb hjson hhash hc, if_pos hc]
    · rw [open_json_hash_mismatch parse fs stem nf bytes hb hjson hhash hc, if_neg hc]
  · intro hjson2 hhash2 hlen2 htake
    have h0 := getD_eq_of_take_four_eq hb hb2 0 (by norm_num) htake
    have h1 := getD_eq_of_take_four_eq hb hb2 1 (by norm_num) htake
    have h2 := getD_eq_of_take_four_eq hb hb2 2 (by norm_num) htake
    have h3 := getD_eq_of_take_four_eq hb hb2 3 (by norm_num) htake
    by_cases hc : decode_be32 (hb.getD 0 0) (hb.getD 1 0) (hb.getD 2 0) (hb.getD 3 0)
        = adler32 bytes
    · rw [open_json_hash_match parse fs stem nf bytes hb hjson hhash hc,
        open_json_hash_match parse fs2 stem nf bytes hb2 hjson2 hhash2
          (by rw [← h0, ← h1, ← h2, ← h3]; exact hc)]
    · rw [open_json_hash_mismatch parse fs stem nf bytes hb hjson hhash hc,
        open_json_hash_mismatch parse fs2 stem nf bytes hb2 hjson2 hhash2
          (by rw [← h0, ← h1, ← h2, ← h3]; exact hc)]

/-- Like fs_valid_hash, but the hash file carries a fifth, trailing byte. -/
def fs_long_hash : String → Option (List Nat) := fun n =>
  if n = "kvs_9_0.json" then some []
  else if n = "kvs_9_0.hash" then some [0, 0, 0, 1, 99]
  else none

/-- Witness for C10: a four-byte hash file and a five-byte hash file with the
same leading four bytes produce identical loader outcomes. -/
theorem hash_check_uses_first_four_bytes_witness :
    Kvs.open_json parse_const_object fs_valid_hash "kvs_9_0" .Required .Yes
      = Kvs.open_json parse_const_object fs_long_hash "kvs_9_0" .Required .Yes :=
  (hash_check_uses_first_four_bytes parse_const_object fs_valid_hash fs_long_hash
      "kvs_9_0" .Required [] [0, 0, 0, 1] [0, 0, 0, 1, 99] rfl rfl (by decide)).2
    rfl rfl (by decide) (by decide)

/-! ## C6: recursive codec conversion -/

/-- An elementwise-successful list converts to the list of converted
elements. -/
theorem conv_elems_of_forall2 (xs : List Any) (ws : List KvsValue)
    (h : List.Forall₂ (fun e w => any_to_kvsvalue e = .ok w) xs ws) :
    conv_elems xs = some ws := by
  induction h with
  | nil => simp [conv_elems]
  | cons h1 h2 ih => simp [conv_elems, h1, ih]

/-- A list with a failing element converts to none (the loop breaks at the
first failure, producing no partial result). -/
theorem conv_elems_none_of_mem (xs : List Any) (e : Any) (hmem : e ∈ xs)
    (hfail : ∀ w, any_to_kvsvalue e ≠ .ok w) : conv_elems xs = none := by
  induction xs with
  | nil => cases hmem
  | cons x t ih =>
    rcases List.mem_cons.mp hmem with h | h
    · subst h
      cases hx : any_to_kvsvalue e with
      | error err => simp [conv_elems, hx]
      | ok w => exact absurd hx (hfail w)
    · cases hx : any_to_kvsvalue x with
      | error err => simp [conv_elems, hx]
      | ok w => simp [conv_elems, hx, ih h]

/-- A memberwise-successful object converts to the list of converted
members, keys unchanged and in order. -/
theorem conv_fields_of_forall2 (ms : List (String × Any)) (os : List (String × KvsValue))
    (h : List.Forall₂ (fun m o => m.1 = o.1 ∧ any_to_kvsvalue m.2 = .ok o.2) ms os) :
    conv_fields ms = some os := by
  induction h with
  | nil => simp [conv_fields]
  | cons h1 h2 ih =>
    rename_i a b l1 l2
    obtain ⟨k, x⟩ := a
    obtain ⟨k2, w⟩ := b
    obtain ⟨hk, hv⟩ := h1
    simp at hk hv
    subst hk
    simp [conv_fields, hv, ih]

/-- An object with a member whose value fails converts to none. -/
theorem conv_fields_none_of_mem (ms : List (String × Any)) (k : String) (v : Any)
    (hmem : (k, v) ∈ ms) (hfail : ∀ w, any_to_kvsvalue v ≠ .ok w) :
    conv_fields ms = none := by
  induction ms with
  | nil => cases hmem
  | cons m t ih =>
    cases m with
    | mk k0 x0 =>
      rcases List.mem_cons.mp hmem with h | h
      · cases h
        cases hx : any_to_kvsvalue v with
        | error err => simp [conv_fields, hx]
        | ok w => exact absurd hx (hfail w)
      · cases hx : any_to_kvsvalue x0 with
        | error err => simp [conv_fields, hx]
        | ok w => simp [conv_fields, hx, ih h]

/-- C6: the codec maps null to Null, boolean to Boolean, number to Number,
string to String; arrays and objects convert recursively, and whenever some
element (or member value) fails, the conversion of the whole array or object
fails with ConversionFailed and no partial result; any node kind outside
these cases yields ConversionFailed. -/
theorem any_to_kvsvalue_cases :
    (any_to_kvsvalue .null = .ok .Null)
      ∧ (∀ b, any_to_kvsvalue (.boolean b) = .ok (.Boolean b))
      ∧ (∀ d, any_to_kvsvalue (.number d) = .ok (.Number d))
      ∧ (∀ s, any_to_kvsvalue (.string s) = .ok (.String s))
      ∧ (∀ xs ws, List.Forall₂ (fun e w => any_to_kvsvalue e = .ok w) xs ws →
          any_to_kvsvalue (.list xs) = .ok (.Array ws))
      ∧ (∀ xs e, e ∈ xs → (∀ w, any_to_kvsvalue e ≠ .ok w) →
          any_to_kvsvalue (.list xs) = .error .ConversionFailed)
      ∧ (∀ ms os, List.Forall₂ (fun m o => m.1 = o.1 ∧ any_to_kvsvalue m.2 = .ok o.2) ms os →
          any_to_kvsvalue (.object ms) = .ok (.Object os))
      ∧ (∀ ms k v, (k, v) ∈ ms → (∀ w, any_to_kvsvalue v ≠ .ok w) →
          any_to_kvsvalue (.object ms) = .error .ConversionFailed)
      ∧ (any_to_kvsvalue .other = .error .ConversionFailed) := by
  refine ⟨?_, ?_, ?_, ?_, ?_, ?_, ?_, ?_, ?_⟩
  · simp [any_to_kvsvalue]
  · intro b; simp [any_to_kvsvalue]
  · intro d; simp [any_to_kvsvalue]
  · intro s; simp [any_to_kvsvalue]
  · intro xs ws h
    simp [any_to_kvsvalue, conv_elems_of_forall2 xs ws h]
  · intro xs e hmem hfail
    simp [any_to_kvsvalue, conv_elems_none_of_mem xs e hmem hfail]
  · intro ms os h
    simp [any_to_kvsvalue, conv_fields_of_forall2 ms os h]
  · intro ms k v hmem hfail
    simp [any_to_kvsvalue, conv_fields_none_of_mem ms k v hmem hfail]
  · simp [any_to_kvsvalue]

/-- Witness for C6: a one-element array whose element is an uncovered node
kind converts to ConversionFailed. -/
theorem any_to_kvsvalue_cases_witness :
    any_to_kvsvalue (.list [.other]) = .error .ConversionFailed :=
  any_to_kvsvalue_cases.2.2.2.2.2.1 [Any.other] Any.other (by simp)
    (by intro w; simp [any_to_kvsvalue])
